import Mathlib

/-!
Shallow embedding of the voxel-engine core of the Kyuubic repository
(`src/src/mesh.rs`): chunk/voxel data model, terrain voxel creation,
the world voxel map, and the face-culling mesher.

Modelling conventions:
* Rust `i32` is modelled as `Int`.  Rust integer division `/` and
  remainder `%` truncate toward zero, so they are modelled by
  `Int.tdiv` and `Int.tmod` (which agree with Lean's `/`, `%` on the
  nonnegative operands arising in this program).
* Rust `usize` casts (`as usize`) appear only at values that are
  provably nonnegative in the program; they are modelled by `Int.toNat`.
* Rust `Vec<T>` is modelled as `List T`; `Vec::get` is `List.getElem?`.
* `HashMap` is modelled as an association list: iteration is list
  order (the source's iteration order over a `HashMap` is arbitrary,
  so theorems quantify over every list order), `HashMap::get` is
  `List.lookup`.
* The `f32` components stored into the mesh buffers are exact small
  values (voxel corner coordinates are whole numbers, normals are
  0/±1); they are modelled as `Int` for positions and normals and as
  `ℚ` for RGBA colors.  No claim depends on floating-point rounding.
-/

namespace Kyuubic

/-- `CHUNK_SIZE` constant from `mesh.rs` line 9. -/
def CHUNK_SIZE : Int := 32

/-- `CHUNK_HEIGHT` constant from `mesh.rs` line 10. -/
def CHUNK_HEIGHT : Int := 64

/-- `SEA_LEVEL` constant from `mesh.rs` line 11. -/
def SEA_LEVEL : Int := 20

/-- `BlockType` enum from `mesh.rs` lines 97-105. -/
inductive BlockType where
  | Air
  | Stone
  | Dirt
  | Grass
  | Snow
  | Water
deriving DecidableEq

/-- `BlockType::color` from `mesh.rs` lines 107-118 (RGBA, modelled in ℚ). -/
def BlockType.color : BlockType → ℚ × ℚ × ℚ × ℚ
  | .Air => (0, 0, 0, 0)
  | .Stone => (0.5, 0.5, 0.5, 1)
  | .Dirt => (0.5, 0.25, 0, 1)
  | .Grass => (0, 0.5, 0, 1)
  | .Snow => (1, 1, 1, 1)
  | .Water => (0, 0, 1, 0.1)

/-- `Voxel` struct from `mesh.rs` lines 120-125. -/
structure Voxel where
  id : Int
  is_solid : Bool
  block_type : BlockType
deriving DecidableEq

/-- `IVec3` (bevy integer vector), used for chunk positions. -/
structure IVec3 where
  x : Int
  y : Int
  z : Int
deriving DecidableEq

/-- `Chunk` struct from `mesh.rs` lines 127-130. -/
structure Chunk where
  voxels : List Voxel

/-- `Chunk::get_voxel` from `mesh.rs` lines 145-152: bounds check, then
`self.voxels.get(index)` with `index = x*CHUNK_HEIGHT*CHUNK_SIZE + y*CHUNK_SIZE + z`. -/
def Chunk.get_voxel (c : Chunk) (x y z : Int) : Option Voxel :=
  if x < 0 ∨ x ≥ CHUNK_SIZE ∨ y < 0 ∨ y ≥ CHUNK_HEIGHT ∨ z < 0 ∨ z ≥ CHUNK_SIZE then
    none
  else
    c.voxels[(x * CHUNK_HEIGHT * CHUNK_SIZE + y * CHUNK_SIZE + z).toNat]?

/-- Voxel id encode used by `create_chunk_voxels` (`mesh.rs` line 213) and by
`Chunk::get_voxel` (line 150): `x * CHUNK_HEIGHT * CHUNK_SIZE + y * CHUNK_SIZE + z`. -/
def voxelId (x y z : Int) : Int :=
  x * CHUNK_HEIGHT * CHUNK_SIZE + y * CHUNK_SIZE + z

/-- Voxel id decode used by `gather_voxels` (`mesh.rs` lines 494-496):
`x = id % CHUNK_SIZE; y = (id / CHUNK_SIZE) % CHUNK_HEIGHT; z = id / (CHUNK_SIZE * CHUNK_HEIGHT)`.
Rust `i32` division truncates toward zero, hence `Int.tdiv` / `Int.tmod`. -/
def decodeId (id : Int) : Int × Int × Int :=
  (Int.tmod id CHUNK_SIZE,
   Int.tmod (Int.tdiv id CHUNK_SIZE) CHUNK_HEIGHT,
   Int.tdiv id (CHUNK_SIZE * CHUNK_HEIGHT))

/-- Material classification of one voxel, the if/else chain inside
`create_chunk_voxels` (`mesh.rs` lines 219-231), as a function of the
voxel's world-space y and the column's heightmap value. -/
def blockTypeOf (voxel_y heightmap_value : Int) : BlockType :=
  if voxel_y ≥ 40 ∧ voxel_y ≤ heightmap_value then .Snow
  else if voxel_y = heightmap_value ∧ voxel_y ≤ heightmap_value then .Grass
  else if voxel_y > heightmap_value - 10 ∧ voxel_y ≤ heightmap_value then .Dirt
  else if voxel_y > 0 ∧ voxel_y ≤ heightmap_value then .Stone
  else if voxel_y ≤ SEA_LEVEL ∧ voxel_y > heightmap_value then .Water
  else .Air

/-- The `is_solid` match inside `create_chunk_voxels` (`mesh.rs` lines 233-236). -/
def isSolidOf : BlockType → Bool
  | .Air => false
  | _ => true

/-- Loop body of `create_chunk_voxels` (`mesh.rs` lines 211-243): builds the
voxel for local coordinate `(x, y, z)` of the chunk at `chunk_pos`.
`heightmap[heightmap_index]` (a panicking index in Rust) is modelled by
`List.getD _ 0`; every theorem using it stays within the heightmap's length. -/
def mkVoxel (chunk_pos : IVec3) (heightmap : List Int) (x y z : Int) : Voxel :=
  let voxel_id := x * CHUNK_HEIGHT * CHUNK_SIZE + y * CHUNK_SIZE + z
  let voxel_y := chunk_pos.y * CHUNK_HEIGHT + y
  let heightmap_value := heightmap.getD (x * CHUNK_SIZE + z).toNat 0
  let block_type := blockTypeOf voxel_y heightmap_value
  { id := voxel_id, is_solid := isSolidOf block_type, block_type := block_type }

/-- `ChunkMap::create_chunk_voxels` from `mesh.rs` lines 205-249: the triple
loop `for z in 0..CHUNK_SIZE { for x in 0..CHUNK_SIZE { for y in 0..CHUNK_HEIGHT`
pushing one voxel per iteration, in that nesting order. -/
def createChunkVoxels (chunk_pos : IVec3) (heightmap : List Int) : List Voxel :=
  (List.range CHUNK_SIZE.toNat).flatMap fun (z : Nat) =>
    (List.range CHUNK_SIZE.toNat).flatMap fun (x : Nat) =>
      (List.range CHUNK_HEIGHT.toNat).map fun (y : Nat) =>
        mkVoxel chunk_pos heightmap (Int.ofNat x) (Int.ofNat y) (Int.ofNat z)

/-- World voxel map: models the `HashMap<(i32,i32,i32), &Voxel>` built by
`gather_voxels` as an association list. -/
abbrev VMap := List ((Int × Int × Int) × Voxel)

/-- `gather_voxels` from `mesh.rs` lines 489-507: for every chunk and every
voxel, decode the local coordinate from the voxel's id and key the voxel by
`chunk_pos * chunk_dim + local`. -/
def gatherVoxels (chunks : List (IVec3 × Chunk)) : VMap :=
  chunks.flatMap fun ck =>
    ck.2.voxels.map fun v =>
      ((ck.1.x * CHUNK_SIZE + (decodeId v.id).1,
        ck.1.y * CHUNK_HEIGHT + (decodeId v.id).2.1,
        ck.1.z * CHUNK_SIZE + (decodeId v.id).2.2),
       v)

/-- The four growing mesh buffers of `generate_mesh` (`mesh.rs` lines 280-283). -/
structure MeshBufs where
  vertices : List (Int × Int × Int)
  indices : List Nat
  normals : List (Int × Int × Int)
  colors : List (ℚ × ℚ × ℚ × ℚ)
deriving DecidableEq

/-- Empty mesh buffers (the initial state of `generate_mesh`). -/
def MeshBufs.empty : MeshBufs := ⟨[], [], [], []⟩

/-- The face index pattern `vec![0,1,2,2,3,0].map(|i| i + index_offset)`
shared by all six `add_*` functions. -/
def faceIndices (index_offset : Nat) : List Nat :=
  [0, 1, 2, 2, 3, 0].map (· + index_offset)

/-- `add_top` from `mesh.rs` lines 576-610. -/
def add_top (b : MeshBufs) (pos : Int × Int × Int) (block_type : BlockType)
    (index_offset : Nat) : MeshBufs :=
  let (x, y, z) := pos
  { vertices := b.vertices ++
      [(x, y + 1, z + 1), (x, y + 1, z), (x + 1, y + 1, z), (x + 1, y + 1, z + 1)]
    indices := b.indices ++ faceIndices index_offset
    normals := b.normals ++ List.replicate 4 (0, 1, 0)
    colors := b.colors ++ List.replicate 4 block_type.color }

/-- `add_bottom` from `mesh.rs` lines 612-646. -/
def add_bottom (b : MeshBufs) (pos : Int × Int × Int) (block_type : BlockType)
    (index_offset : Nat) : MeshBufs :=
  let (x, y, z) := pos
  { vertices := b.vertices ++
      [(x + 1, y, z + 1), (x, y, z + 1), (x, y, z), (x + 1, y, z)]
    indices := b.indices ++ faceIndices index_offset
    normals := b.normals ++ List.replicate 4 (0, -1, 0)
    colors := b.colors ++ List.replicate 4 block_type.color }

/-- `add_left` from `mesh.rs` lines 648-682. -/
def add_left (b : MeshBufs) (pos : Int × Int × Int) (block_type : BlockType)
    (index_offset : Nat) : MeshBufs :=
  let (x, y, z) := pos
  { vertices := b.vertices ++
      [(x, y, z + 1), (x, y + 1, z + 1), (x, y + 1, z), (x, y, z)]
    indices := b.indices ++ faceIndices index_offset
    normals := b.normals ++ List.replicate 4 (-1, 0, 0)
    colors := b.colors ++ List.replicate 4 block_type.color }

/-- `add_right` from `mesh.rs` lines 684-718.  Note: the source appends the
normal `[-1.0, 0.0, 0.0]` (line 711), not `[1.0, 0.0, 0.0]`. -/
def add_right (b : MeshBufs) (pos : Int × Int × Int) (block_type : BlockType)
    (index_offset : Nat) : MeshBufs :=
  let (x, y, z) := pos
  { vertices := b.vertices ++
      [(x + 1, y, z + 1), (x + 1, y + 1, z + 1), (x + 1, y + 1, z), (x + 1, y, z)]
    indices := b.indices ++ faceIndices index_offset
    normals := b.normals ++ List.replicate 4 (-1, 0, 0)
    colors := b.colors ++ List.replicate 4 block_type.color }

/-- `add_front` from `mesh.rs` lines 720-754.  Note: the source appends the
normal `[-1.0, 0.0, 0.0]` (line 747), not `[0.0, 0.0, 1.0]`. -/
def add_front (b : MeshBufs) (pos : Int × Int × Int) (block_type : BlockType)
    (index_offset : Nat) : MeshBufs :=
  let (x, y, z) := pos
  { vertices := b.vertices ++
      [(x, y, z + 1), (x, y + 1, z + 1), (x + 1, y + 1, z + 1), (x + 1, y, z + 1)]
    indices := b.indices ++ faceIndices index_offset
    normals := b.normals ++ List.replicate 4 (-1, 0, 0)
    colors := b.colors ++ List.replicate 4 block_type.color }

/-- `add_back` from `mesh.rs` lines 756-790.  Note: the source appends the
normal `[-1.0, 0.0, 0.0]` (line 783), not `[0.0, 0.0, -1.0]`. -/
def add_back (b : MeshBufs) (pos : Int × Int × Int) (block_type : BlockType)
    (index_offset : Nat) : MeshBufs :=
  let (x, y, z) := pos
  { vertices := b.vertices ++
      [(x, y, z), (x, y + 1, z), (x + 1, y + 1, z), (x + 1, y, z)]
    indices := b.indices ++ faceIndices index_offset
    normals := b.normals ++ List.replicate 4 (-1, 0, 0)
    colors := b.colors ++ List.replicate 4 block_type.color }

/-- Neighbor occlusion test of `generate_mesh`
(`terrain_voxels.get(&key).map_or(false, |v| v.is_solid)`). -/
def occludes (vmap : VMap) (key : Int × Int × Int) : Bool :=
  ((vmap.lookup key).map Voxel.is_solid).getD false

/-- The six face directions of `generate_mesh`. -/
inductive Dir where
  | bottom
  | top
  | left
  | right
  | front
  | back
deriving DecidableEq

/-- Neighbor key checked for each direction in `generate_mesh`
(lines 294, 310, 325, 341, 357, 373 of `mesh.rs`). -/
def nbrKey : Dir → (Int × Int × Int) → Int × Int × Int
  | .bottom, (x, y, z) => (x, y - 1, z)
  | .top, (x, y, z) => (x, y + 1, z)
  | .left, (x, y, z) => (x - 1, y, z)
  | .right, (x, y, z) => (x + 1, y, z)
  | .front, (x, y, z) => (x, y, z + 1)
  | .back, (x, y, z) => (x, y, z - 1)

/-- The `add_*` function invoked for each direction in `generate_mesh`. -/
def addFace : Dir → MeshBufs → (Int × Int × Int) → BlockType → Nat → MeshBufs
  | .bottom => add_bottom
  | .top => add_top
  | .left => add_left
  | .right => add_right
  | .front => add_front
  | .back => add_back

/-- The order in which `generate_mesh` checks the six directions
(`mesh.rs` lines 293-386): bottom, top, left, right, front, back. -/
def dirOrder : List Dir := [.bottom, .top, .left, .right, .front, .back]

/-- Body of the per-voxel loop of `generate_mesh` (`mesh.rs` lines 289-388):
if the voxel is solid, run the six guarded face blocks in source order; each
non-occluded direction appends one face and advances `index_offset` by 4. -/
def processVoxel (vmap : VMap) (st : MeshBufs × Nat)
    (entry : (Int × Int × Int) × Voxel) : MeshBufs × Nat :=
  if entry.2.is_solid then
    dirOrder.foldl
      (fun s d =>
        if occludes vmap (nbrKey d entry.1) then s
        else (addFace d s.1 entry.1 entry.2.block_type s.2, s.2 + 4))
      st
  else st

/-- `generate_mesh` from `mesh.rs` lines 277-391, parameterized by the entry
list of the gathered voxel map (one fixed iteration order of the `HashMap`);
returns `(vertices, indices, normals, colors)`. -/
def generate_mesh (vmap : VMap) :
    List (Int × Int × Int) × List Nat × List (Int × Int × Int) × List (ℚ × ℚ × ℚ × ℚ) :=
  let st := vmap.foldl (processVoxel vmap) (MeshBufs.empty, 0)
  (st.1.vertices, st.1.indices, st.1.normals, st.1.colors)

/-- The directions for which `processVoxel` emits a face: all six, in source
order, minus the occluded ones; none when the voxel is not solid. -/
def emittedDirs (vmap : VMap) (pos : Int × Int × Int) (v : Voxel) : List Dir :=
  if v.is_solid then dirOrder.filter (fun d => !occludes vmap (nbrKey d pos)) else []

/-- The 4 vertices appended for each face direction (the literal vertex
tables of the corresponding `add_*` function). -/
def faceVerts : Dir → (Int × Int × Int) → List (Int × Int × Int)
  | .top, (x, y, z) =>
      [(x, y + 1, z + 1), (x, y + 1, z), (x + 1, y + 1, z), (x + 1, y + 1, z + 1)]
  | .bottom, (x, y, z) =>
      [(x + 1, y, z + 1), (x, y, z + 1), (x, y, z), (x + 1, y, z)]
  | .left, (x, y, z) =>
      [(x, y, z + 1), (x, y + 1, z + 1), (x, y + 1, z), (x, y, z)]
  | .right, (x, y, z) =>
      [(x + 1, y, z + 1), (x + 1, y + 1, z + 1), (x + 1, y + 1, z), (x + 1, y, z)]
  | .front, (x, y, z) =>
      [(x, y, z + 1), (x, y + 1, z + 1), (x + 1, y + 1, z + 1), (x + 1, y, z + 1)]
  | .back, (x, y, z) =>
      [(x, y, z), (x, y + 1, z), (x + 1, y + 1, z), (x + 1, y, z)]

/-- Mesh-buffer well-formedness: the three vertex-parallel buffers have
length equal to the running `index_offset`, the index count is a multiple
of 6, and every index is below the vertex count. -/
def bufInv (st : MeshBufs × Nat) : Prop :=
  st.1.vertices.length = st.2 ∧
  st.1.normals.length = st.2 ∧
  st.1.colors.length = st.2 ∧
  6 ∣ st.1.indices.length ∧
  ∀ i ∈ st.1.indices, i < st.2

/-- Claim chain for C5, written from the claim's wording (branch 2 is just
`wy == h`, without the source's redundant `voxel_y <= heightmap_value`). -/
def blockTypeSpec (wy h : Int) : BlockType :=
  if wy ≥ 40 ∧ wy ≤ h then .Snow
  else if wy = h then .Grass
  else if wy > h - 10 ∧ wy ≤ h then .Dirt
  else if wy > 0 ∧ wy ≤ h then .Stone
  else if wy ≤ SEA_LEVEL ∧ wy > h then .Water
  else .Air

/-- A solid Stone voxel, for concrete witnesses. -/
def stoneVoxel : Voxel := ⟨0, true, .Stone⟩

/-- A solid Water voxel, exactly as `create_chunk_voxels` builds water
(`is_solid = true` since Water ≠ Air). -/
def waterVoxel : Voxel := ⟨0, true, .Water⟩

/-- Concrete map: a Stone voxel at the origin with a Water voxel as its
`+X` (right) neighbor. -/
def waterDemoMap : VMap :=
  [(((0 : Int), (0 : Int), (0 : Int)), stoneVoxel),
   (((1 : Int), (0 : Int), (0 : Int)), waterVoxel)]

/-- Concrete map: a Stone voxel at the origin enclosed by six Stone neighbors. -/
def enclosedDemoMap : VMap :=
  [(((0 : Int), (0 : Int), (0 : Int)), stoneVoxel),
   (((0 : Int), (-1 : Int), (0 : Int)), stoneVoxel),
   (((0 : Int), (1 : Int), (0 : Int)), stoneVoxel),
   (((-1 : Int), (0 : Int), (0 : Int)), stoneVoxel),
   (((1 : Int), (0 : Int), (0 : Int)), stoneVoxel),
   (((0 : Int), (0 : Int), (1 : Int)), stoneVoxel),
   (((0 : Int), (0 : Int), (-1 : Int)), stoneVoxel)]

/-- Concrete map holding a single solid Stone voxel at the origin. -/
def singleStoneMap : VMap :=
  [(((0 : Int), (0 : Int), (0 : Int)), stoneVoxel)]

/-- A flat heightmap (all columns at height 30) of the full
`CHUNK_SIZE * CHUNK_SIZE` length, for concrete theorems. -/
def flatHeightmap : List Int := List.replicate 1024 30

/-- C1: `gather_voxels` decodes id 1 = `voxelId 0 0 1` to local coordinate
`(1, 0, 0)`, not `(0, 0, 1)`: the decode reads the x coordinate out of the
low digit and the z coordinate out of the high digit, the opposite of the
encode `id = x*(H*S) + y*S + z`. -/
theorem decodeId_not_inverse_of_voxelId :
    decodeId (voxelId 0 0 1) = (1, 0, 0) ∧
    ((1 : Int), (0 : Int), (0 : Int)) ≠ ((0 : Int), (0 : Int), (1 : Int)) := by
  decide

/-- Supporting fact for C1: on every in-bounds local coordinate the
`gather_voxels` decode returns the encode's coordinates with x and z
swapped. -/
theorem decodeId_voxelId_swapped (x y z : Int)
    (hx0 : 0 ≤ x) (hx : x < CHUNK_SIZE)
    (hy0 : 0 ≤ y) (hy : y < CHUNK_HEIGHT)
    (hz0 : 0 ≤ z) (hz : z < CHUNK_SIZE) :
    decodeId (voxelId x y z) = (z, y, x) := by
  unfold decodeId voxelId CHUNK_SIZE CHUNK_HEIGHT at *
  have h32 : ((32 : Int)) ≠ 0 := by decide
  rw [Int.tmod_eq_emod (by omega) (by omega), Int.tdiv_eq_ediv (by omega) (by omega),
    Int.tmod_eq_emod (by omega) (by omega), Int.tdiv_eq_ediv (by omega) (by omega)]
  refine Prod.ext ?_ (Prod.ext ?_ ?_) <;> simp only <;> omega

/-- Witness that the hypotheses of `decodeId_voxelId_swapped` are satisfiable. -/
theorem decodeId_voxelId_swapped_witness :
    decodeId (voxelId 0 0 1) = (1, 0, 0) :=
  decodeId_voxelId_swapped 0 0 1 (by decide) (by decide) (by decide) (by decide)
    (by decide) (by decide)

/-- C3: the four normals appended by `add_right`, `add_front` and `add_back`
all equal `(-1, 0, 0)` (the left-face normal), not the direction-specific
normals `(1,0,0)`, `(0,0,1)`, `(0,0,-1)`; `add_top`, `add_bottom`, `add_left`
carry their correct normals. -/
theorem add_face_normal_values :
    (add_right MeshBufs.empty (0, 0, 0) .Stone 0).normals = List.replicate 4 (-1, 0, 0) ∧
    (add_front MeshBufs.empty (0, 0, 0) .Stone 0).normals = List.replicate 4 (-1, 0, 0) ∧
    (add_back MeshBufs.empty (0, 0, 0) .Stone 0).normals = List.replicate 4 (-1, 0, 0) ∧
    (add_top MeshBufs.empty (0, 0, 0) .Stone 0).normals = List.replicate 4 (0, 1, 0) ∧
    (add_bottom MeshBufs.empty (0, 0, 0) .Stone 0).normals = List.replicate 4 (0, -1, 0) ∧
    (add_left MeshBufs.empty (0, 0, 0) .Stone 0).normals = List.replicate 4 (-1, 0, 0) ∧
    ((-1, 0, 0) : Int × Int × Int) ≠ (1, 0, 0) ∧
    ((-1, 0, 0) : Int × Int × Int) ≠ (0, 0, 1) ∧
    ((-1, 0, 0) : Int × Int × Int) ≠ (0, 0, -1) := by
  refine ⟨rfl, rfl, rfl, rfl, rfl, rfl, by decide, by decide, by decide⟩

/-- C5: the material chain of `create_chunk_voxels` is exactly the claimed
first-match priority chain (Snow, Grass, Dirt, Stone, Water, Air), and
`is_solid` holds exactly for non-Air materials. -/
theorem blockTypeOf_matches_priority_chain :
    (∀ wy h : Int, blockTypeOf wy h = blockTypeSpec wy h) ∧
    (∀ bt : BlockType, isSolidOf bt = true ↔ bt ≠ BlockType.Air) := by
  constructor
  · intro wy h
    unfold blockTypeOf blockTypeSpec
    split_ifs <;> first | rfl | (exfalso; omega)
  · intro bt
    cases bt <;> simp [isSolidOf]

/-- C9: `Chunk::get_voxel` returns `none` for every out-of-bounds local
coordinate; it is a total function into `Option`. -/
theorem get_voxel_out_of_bounds_none (c : Chunk) (x y z : Int)
    (h : x < 0 ∨ x ≥ CHUNK_SIZE ∨ y < 0 ∨ y ≥ CHUNK_HEIGHT ∨ z < 0 ∨ z ≥ CHUNK_SIZE) :
    c.get_voxel x y z = none := by
  unfold Chunk.get_voxel
  rw [if_pos h]

/-- Witness for C9 at the concrete out-of-bounds coordinate `(-1, 0, 0)`. -/
theorem get_voxel_out_of_bounds_none_witness :
    Chunk.get_voxel ⟨[]⟩ (-1) 0 0 = none :=
  get_voxel_out_of_bounds_none ⟨[]⟩ (-1) 0 0 (by decide)

/-- C2 counterexample: in `waterDemoMap` the solid, non-Water Stone voxel at
the origin has a Water voxel as its `+X` neighbor, yet the right face is not
emitted — Water occludes because the mesher tests only `is_solid`. -/
theorem water_neighbor_face_suppressed :
    stoneVoxel.is_solid = true ∧
    stoneVoxel.block_type ≠ BlockType.Water ∧
    waterDemoMap.lookup ((1 : Int), (0 : Int), (0 : Int)) = some waterVoxel ∧
    waterVoxel.block_type = BlockType.Water ∧
    Dir.right ∉ emittedDirs waterDemoMap ((0 : Int), (0 : Int), (0 : Int)) stoneVoxel := by
  decide

/-- C2 (amended): a neighbor that is present in the gathered voxel map and
solid — in particular every Water voxel, since Water is solid — suppresses
the face on the shared boundary. -/
theorem solid_neighbor_occludes (vmap : VMap) (pos : Int × Int × Int)
    (v nv : Voxel) (d : Dir)
    (hl : vmap.lookup (nbrKey d pos) = some nv)
    (_hw : nv.block_type = BlockType.Water)
    (hs : nv.is_solid = true) :
    d ∉ emittedDirs vmap pos v := by
  intro hmem
  unfold emittedDirs at hmem
  split at hmem
  · have hocc : occludes vmap (nbrKey d pos) = true := by
      unfold occludes
      rw [hl]
      simp [hs]
    rw [List.mem_filter, hocc] at hmem
    simp at hmem
  · simp at hmem

/-- Witness for the amended C2 at the concrete map `waterDemoMap`. -/
theorem solid_neighbor_occludes_witness :
    Dir.right ∉ emittedDirs waterDemoMap ((0 : Int), (0 : Int), (0 : Int)) stoneVoxel :=
  solid_neighbor_occludes waterDemoMap ((0 : Int), (0 : Int), (0 : Int)) stoneVoxel
    waterVoxel Dir.right (by decide) (by decide) (by decide)

/-- Helper: the length of a uniform-length flatMap over `List.range`. -/
theorem range_flatMap_length {α : Type} (f : Nat → List α) (L n : Nat)
    (hf : ∀ k, (f k).length = L) :
    ((List.range n).flatMap f).length = n * L := by
  induction n with
  | zero => simp
  | succ n ih =>
    rw [List.range_succ, List.flatMap_append, List.length_append, ih]
    simp [hf]
    ring

/-- Helper: indexing into a uniform-length flatMap over `List.range`. -/
theorem range_flatMap_get {α : Type} (f : Nat → List α) (L n i j : Nat)
    (hf : ∀ k, (f k).length = L) (hi : i < n) (hj : j < L) :
    ((List.range n).flatMap f)[i * L + j]? = (f i)[j]? := by
  induction n with
  | zero => exact absurd hi (Nat.not_lt_zero i)
  | succ n ih =>
    rw [List.range_succ, List.flatMap_append]
    rcases Nat.lt_succ_iff_lt_or_eq.mp hi with h | h
    · have hlen : i * L + j < ((List.range n).flatMap f).length := by
        rw [range_flatMap_length f L n hf]
        calc i * L + j < i * L + L := by omega
          _ = (i + 1) * L := by ring
          _ ≤ n * L := Nat.mul_le_mul_right L h
      rw [List.getElem?_append_left hlen]
      exact ih h
    · subst h
      have hlen : ((List.range i).flatMap f).length = i * L :=
        range_flatMap_length f L i hf
      rw [List.getElem?_append_right (by rw [hlen]; omega), hlen]
      have hsub : i * L + j - i * L = j := by omega
      rw [hsub]
      simp

/-- Helper: the voxel stored at flat position `z*2048 + x*64 + y` of
`createChunkVoxels` is the one built for loop variables `(z, x, y)` — the
source pushes in `z`-outer, `x`-middle, `y`-inner order. -/
theorem createChunkVoxels_getElem (cp : IVec3) (hm : List Int) (x y z : Nat)
    (hx : x < 32) (hy : y < 64) (hz : z < 32) :
    (createChunkVoxels cp hm)[z * 2048 + (x * 64 + y)]? =
      some (mkVoxel cp hm (Int.ofNat x) (Int.ofNat y) (Int.ofNat z)) := by
  unfold createChunkVoxels
  have hCS : CHUNK_SIZE.toNat = 32 := by decide
  have hCH : CHUNK_HEIGHT.toNat = 64 := by decide
  rw [hCS, hCH]
  have hinner : ∀ zz xx : Nat,
      ((List.range 64).map fun (yy : Nat) =>
        mkVoxel cp hm (Int.ofNat xx) (Int.ofNat yy) (Int.ofNat zz)).length = 64 := by
    intro zz xx
    simp
  have houter : ∀ zz : Nat,
      ((List.range 32).flatMap fun (xx : Nat) =>
        (List.range 64).map fun (yy : Nat) =>
          mkVoxel cp hm (Int.ofNat xx) (Int.ofNat yy) (Int.ofNat zz)).length = 2048 := by
    intro zz
    rw [range_flatMap_length _ 64 32 (hinner zz)]
  rw [range_flatMap_get _ 2048 32 z (x * 64 + y) houter hz (by omega)]
  rw [range_flatMap_get _ 64 32 x y (hinner z) hx hy]
  rw [List.getElem?_map, List.getElem?_range hy]
  rfl

/-- C4: on a generated chunk, `get_voxel(0,0,1)` computes array index 1,
but position 1 of the voxel list holds the voxel created for loop variables
`(z,x,y) = (0,0,1)`, whose id is `voxelId 0 1 0 = 32` — not
`voxelId 0 0 1 = 1`: the z-outer/x-middle/y-inner push order does not match
the `x*(H*S) + y*S + z` indexing formula. -/
theorem get_voxel_id_mismatch :
    ((Chunk.mk (createChunkVoxels ⟨0, 0, 0⟩ flatHeightmap)).get_voxel 0 0 1).map Voxel.id
      = some 32 ∧
    (32 : Int) ≠ voxelId 0 0 1 := by
  constructor
  · have h := createChunkVoxels_getElem ⟨0, 0, 0⟩ flatHeightmap 0 1 0
      (by omega) (by omega) (by omega)
    norm_num at h
    unfold Chunk.get_voxel
    rw [if_neg (by decide)]
    have hidx : ((0 : Int) * CHUNK_HEIGHT * CHUNK_SIZE + 0 * CHUNK_SIZE + 1).toNat = 1 := by
      decide
    rw [hidx]
    show ((createChunkVoxels ⟨0, 0, 0⟩ flatHeightmap)[(1 : Nat)]?).map Voxel.id = some 32
    rw [h]
    decide
  · decide

/-- C10: a voxel at local `y = 0` of a chunk at chunk y-coordinate 0 (world
Y = 0), in a column whose heightmap value is at least 10, is classified Air
and is not solid: Stone requires `wy > 0` and Dirt requires `wy > h - 10`. -/
theorem bottom_layer_is_air (cp : IVec3) (hm : List Int) (x z : Nat)
    (hx : x < 32) (hz : z < 32) (hcp : cp.y = 0)
    (hh : 10 ≤ hm.getD (x * 32 + z) 0) :
    ((createChunkVoxels cp hm)[z * 2048 + (x * 64 + 0)]?).map
      (fun v => (v.block_type, v.is_solid)) = some (BlockType.Air, false) := by
  rw [createChunkVoxels_getElem cp hm x 0 z hx (by omega) hz]
  have hidx : ((Int.ofNat x) * CHUNK_SIZE + Int.ofNat z).toNat = x * 32 + z := by
    unfold CHUNK_SIZE
    simp only [Int.ofNat_eq_coe]
    omega
  simp only [mkVoxel, hidx, Option.map_some']
  rw [hcp]
  have hwy : (0 : Int) * CHUNK_HEIGHT + Int.ofNat 0 = 0 := by
    simp
  rw [hwy]
  unfold blockTypeOf SEA_LEVEL
  split_ifs <;> first | (exfalso; omega) | rfl

/-- Witness for C10 on a concrete flat heightmap of value 10. -/
theorem bottom_layer_is_air_witness :
    ((createChunkVoxels ⟨0, 0, 0⟩ (List.replicate 1024 10))[0 * 2048 + (0 * 64 + 0)]?).map
      (fun v => (v.block_type, v.is_solid)) = some (BlockType.Air, false) :=
  bottom_layer_is_air ⟨0, 0, 0⟩ (List.replicate 1024 10) 0 0 (by decide) (by decide) rfl
    (by decide)

/-- Helper: folding a guarded step equals folding the unguarded step over
the filtered list. -/
theorem foldl_skip_filter {α β : Type} (q : α → Bool) (g : β → α → β) :
    ∀ (l : List α) (s : β),
      l.foldl (fun s a => if q a then s else g s a) s =
        (l.filter fun a => !q a).foldl g s := by
  intro l
  induction l with
  | nil => intro s; rfl
  | cons a l ih =>
    intro s
    by_cases h : q a
    · simp [List.foldl_cons, List.filter_cons, h, ih]
    · simp [List.foldl_cons, List.filter_cons, h, ih]

/-- Helper: `processVoxel` is the fold of face emission over exactly the
directions in `emittedDirs`. -/
theorem processVoxel_eq_emitted (vmap : VMap) (st : MeshBufs × Nat)
    (pos : Int × Int × Int) (v : Voxel) :
    processVoxel vmap st (pos, v) =
      (emittedDirs vmap pos v).foldl
        (fun s d => (addFace d s.1 pos v.block_type s.2, s.2 + 4)) st := by
  unfold processVoxel emittedDirs
  by_cases hv : v.is_solid = true
  · simp only [hv, if_true]
    exact foldl_skip_filter (fun d => occludes vmap (nbrKey d pos))
      (fun s d => (addFace d s.1 pos v.block_type s.2, s.2 + 4)) dirOrder st
  · simp [hv]

/-- Helper: each `add_*` function appends exactly its 4-vertex face table. -/
theorem addFace_vertices (d : Dir) (b : MeshBufs) (pos : Int × Int × Int)
    (bt : BlockType) (off : Nat) :
    (addFace d b pos bt off).vertices = b.vertices ++ faceVerts d pos := by
  obtain ⟨x, y, z⟩ := pos
  cases d <;> rfl

/-- Helper: the face-emission fold appends the face vertex tables of the
folded directions, in order. -/
theorem emitted_foldl_vertices (pos : Int × Int × Int) (bt : BlockType) :
    ∀ (L : List Dir) (st : MeshBufs × Nat),
      ((L.foldl (fun s d => (addFace d s.1 pos bt s.2, s.2 + 4)) st).1).vertices =
        st.1.vertices ++ L.flatMap (fun d => faceVerts d pos) := by
  intro L
  induction L with
  | nil => intro st; simp
  | cons d L ih =>
    intro st
    rw [List.foldl_cons, ih, List.flatMap_cons]
    simp only [addFace_vertices, List.append_assoc]

/-- C7: a solid voxel whose neighbor in direction `d` is absent from the
gathered voxel map always emits the face toward `d`: `d` is among the
emitted directions, and the per-voxel step appends exactly the 4-vertex
faces of the emitted directions to the mesh. -/
theorem missing_neighbor_emits_face (vmap : VMap) (st : MeshBufs × Nat)
    (pos : Int × Int × Int) (v : Voxel) (d : Dir)
    (hs : v.is_solid = true)
    (hn : vmap.lookup (nbrKey d pos) = none) :
    d ∈ emittedDirs vmap pos v ∧
    (processVoxel vmap st (pos, v)).1.vertices =
      st.1.vertices ++ (emittedDirs vmap pos v).flatMap (fun e => faceVerts e pos) := by
  constructor
  · unfold emittedDirs
    rw [if_pos hs, List.mem_filter]
    constructor
    · cases d <;> simp [dirOrder]
    · simp [occludes, hn]
  · rw [processVoxel_eq_emitted, emitted_foldl_vertices]

/-- Witness for C7: a single solid Stone voxel with no neighbors emits its
top face. -/
theorem missing_neighbor_emits_face_witness :
    Dir.top ∈ emittedDirs singleStoneMap ((0 : Int), (0 : Int), (0 : Int)) stoneVoxel ∧
    (processVoxel singleStoneMap (MeshBufs.empty, 0)
        (((0 : Int), (0 : Int), (0 : Int)), stoneVoxel)).1.vertices =
      (MeshBufs.empty, 0).1.vertices ++
        (emittedDirs singleStoneMap ((0 : Int), (0 : Int), (0 : Int)) stoneVoxel).flatMap
          (fun e => faceVerts e ((0 : Int), (0 : Int), (0 : Int))) :=
  missing_neighbor_emits_face singleStoneMap (MeshBufs.empty, 0)
    ((0 : Int), (0 : Int), (0 : Int)) stoneVoxel Dir.top (by decide) (by decide)

/-- C6: a solid voxel all six of whose neighbors are present, solid and
non-Water emits no geometry at all: the per-voxel step of `generate_mesh`
returns the mesh state unchanged. -/
theorem enclosed_voxel_emits_no_faces (vmap : VMap) (st : MeshBufs × Nat)
    (x y z : Int) (v n1 n2 n3 n4 n5 n6 : Voxel)
    (hs : v.is_solid = true)
    (h1 : vmap.lookup (x, y - 1, z) = some n1 ∧ n1.is_solid = true ∧
      n1.block_type ≠ BlockType.Water)
    (h2 : vmap.lookup (x, y + 1, z) = some n2 ∧ n2.is_solid = true ∧
      n2.block_type ≠ BlockType.Water)
    (h3 : vmap.lookup (x - 1, y, z) = some n3 ∧ n3.is_solid = true ∧
      n3.block_type ≠ BlockType.Water)
    (h4 : vmap.lookup (x + 1, y, z) = some n4 ∧ n4.is_solid = true ∧
      n4.block_type ≠ BlockType.Water)
    (h5 : vmap.lookup (x, y, z + 1) = some n5 ∧ n5.is_solid = true ∧
      n5.block_type ≠ BlockType.Water)
    (h6 : vmap.lookup (x, y, z - 1) = some n6 ∧ n6.is_solid = true ∧
      n6.block_type ≠ BlockType.Water) :
    processVoxel vmap st ((x, y, z), v) = st := by
  have o1 : occludes vmap (x, y - 1, z) = true := by
    unfold occludes; rw [h1.1]; simp [h1.2.1]
  have o2 : occludes vmap (x, y + 1, z) = true := by
    unfold occludes; rw [h2.1]; simp [h2.2.1]
  have o3 : occludes vmap (x - 1, y, z) = true := by
    unfold occludes; rw [h3.1]; simp [h3.2.1]
  have o4 : occludes vmap (x + 1, y, z) = true := by
    unfold occludes; rw [h4.1]; simp [h4.2.1]
  have o5 : occludes vmap (x, y, z + 1) = true := by
    unfold occludes; rw [h5.1]; simp [h5.2.1]
  have o6 : occludes vmap (x, y, z - 1) = true := by
    unfold occludes; rw [h6.1]; simp [h6.2.1]
  unfold processVoxel dirOrder
  simp only [hs, if_true, List.foldl_cons, List.foldl_nil, nbrKey, o1, o2, o3, o4, o5, o6,
    if_pos]

/-- Witness for C6: the enclosed Stone voxel of `enclosedDemoMap` adds
nothing to the mesh state. -/
theorem enclosed_voxel_emits_no_faces_witness :
    processVoxel enclosedDemoMap (MeshBufs.empty, 0)
      (((0 : Int), (0 : Int), (0 : Int)), stoneVoxel) = (MeshBufs.empty, 0) :=
  enclosed_voxel_emits_no_faces enclosedDemoMap (MeshBufs.empty, 0) 0 0 0
    stoneVoxel stoneVoxel stoneVoxel stoneVoxel stoneVoxel stoneVoxel stoneVoxel
    (by decide) (by decide) (by decide) (by decide) (by decide) (by decide) (by decide)

/-- Helper: a property preserved by every fold step holds of the fold. -/
theorem foldl_preserve {α β : Type} (P : β → Prop) (f : β → α → β)
    (hf : ∀ s a, P s → P (f s a)) :
    ∀ (l : List α) (s : β), P s → P (l.foldl f s) := by
  intro l
  induction l with
  | nil => intro s hs; exact hs
  | cons a l ih => intro s hs; exact ih (f s a) (hf s a hs)

/-- Helper: appending one face (4 vertices, 4 normals, 4 colors, the 6
offset indices) preserves mesh-buffer well-formedness and advances the
offset by 4. -/
theorem bufInv_extend (b : MeshBufs) (off : Nat) (vs ns : List (Int × Int × Int))
    (cs : List (ℚ × ℚ × ℚ × ℚ)) (hvs : vs.length = 4) (hns : ns.length = 4)
    (hcs : cs.length = 4) (h : bufInv (b, off)) :
    bufInv ({ vertices := b.vertices ++ vs, indices := b.indices ++ faceIndices off,
              normals := b.normals ++ ns, colors := b.colors ++ cs }, off + 4) := by
  obtain ⟨hv, hn, hc, hi, hm⟩ := h
  refine ⟨?_, ?_, ?_, ?_, ?_⟩
  · simp only [List.length_append]
    simp at hv
    omega
  · simp only [List.length_append]
    simp at hn
    omega
  · simp only [List.length_append]
    simp at hc
    omega
  · simp only [List.length_append, faceIndices, List.length_map, List.length_cons,
      List.length_nil]
    simp at hi
    omega
  · intro i hi2
    simp only [List.mem_append] at hi2
    rcases hi2 with hi2 | hi2
    · have := hm i hi2
      simp at this
      omega
    · unfold faceIndices at hi2
      rw [List.mem_map] at hi2
      obtain ⟨a, ha, rfl⟩ := hi2
      simp at ha
      omega

/-- Helper: every face emission preserves mesh-buffer well-formedness and
advances the offset by 4. -/
theorem addFace_bufInv (d : Dir) (pos : Int × Int × Int) (bt : BlockType)
    (st : MeshBufs × Nat) (h : bufInv st) :
    bufInv (addFace d st.1 pos bt st.2, st.2 + 4) := by
  obtain ⟨b, off⟩ := st
  obtain ⟨x, y, z⟩ := pos
  cases d <;> exact bufInv_extend b off _ _ _ rfl rfl rfl h

/-- Helper: the per-voxel step of `generate_mesh` preserves mesh-buffer
well-formedness. -/
theorem processVoxel_bufInv (vmap : VMap) (st : MeshBufs × Nat)
    (e : (Int × Int × Int) × Voxel) (h : bufInv st) :
    bufInv (processVoxel vmap st e) := by
  unfold processVoxel
  split
  · refine foldl_preserve bufInv _ ?_ dirOrder st h
    intro s d hsd
    dsimp only
    split
    · exact hsd
    · exact addFace_bufInv d e.1 e.2.block_type s hsd
  · exact h

/-- C8: for every gathered voxel map, `generate_mesh` returns vertex, normal
and color buffers of equal length, an index buffer whose length is a
multiple of 6, and indices all strictly below the vertex count. -/
theorem generate_mesh_consistency (vmap : VMap) :
    (generate_mesh vmap).1.length = (generate_mesh vmap).2.2.1.length ∧
    (generate_mesh vmap).1.length = (generate_mesh vmap).2.2.2.length ∧
    6 ∣ (generate_mesh vmap).2.1.length ∧
    ∀ i ∈ (generate_mesh vmap).2.1, i < (generate_mesh vmap).1.length := by
  have h : bufInv (vmap.foldl (processVoxel vmap) (MeshBufs.empty, 0)) := by
    refine foldl_preserve bufInv (processVoxel vmap)
      (fun s e hs => processVoxel_bufInv vmap s e hs) vmap (MeshBufs.empty, 0) ?_
    refine ⟨rfl, rfl, rfl, ⟨0, rfl⟩, ?_⟩
    intro i hi
    cases hi
  obtain ⟨h1, h2, h3, h4, h5⟩ := h
  have hred : generate_mesh vmap =
      ((vmap.foldl (processVoxel vmap) (MeshBufs.empty, 0)).1.vertices,
       (vmap.foldl (processVoxel vmap) (MeshBufs.empty, 0)).1.indices,
       (vmap.foldl (processVoxel vmap) (MeshBufs.empty, 0)).1.normals,
       (vmap.foldl (processVoxel vmap) (MeshBufs.empty, 0)).1.colors) := rfl
  rw [hred]
  refine ⟨?_, ?_, h4, ?_⟩
  · rw [h1, h2]
  · rw [h1, h3]
  · intro i hi
    rw [h1]
    exact h5 i hi

end Kyuubic
